import Mathlib

/-!
# Verification of the clock-in attendance core (keatonmc15/clockin_app)

Shallow embedding of the attendance state machine, geofence resolution,
payroll aggregation and audit-trail logic of `src/app.py`, together with
theorems settling the frozen specification claims.

Modelling conventions:
* SQLAlchemy rows become Lean structures; the database session becomes an
  explicit `DB` record threaded through each handler.
* Python `float` coordinates, distances and radii are modelled as `ℚ`.
* UTC timestamps (naive `datetime`) are modelled as `Int` epoch seconds.
* `haversine_m` (src/app.py:288) is a transcendental floating-point
  function; it is modelled as an explicit parameter `hav` supplied to every
  definition that calls it, so theorems quantify over the distance function
  and concrete instantiations stand for realizable store geometries.
* HTTP parsing, session auth (`_require_mobile_auth`, `admin_guard`) and the
  ORM are out of scope per the spec; handlers receive already-decoded typed
  arguments and return a result inductive mirroring the JSON payload.
-/

namespace Clockin

/-- `stores` row (src/app.py:147). -/
structure Store where
  id : Nat
  name : String
  qr_token : String
  latitude : ℚ
  longitude : ℚ
  geofence_radius_m : ℚ
  deriving Repr, DecidableEq

/-- `employees` row (src/app.py:160). -/
structure Employee where
  id : Nat
  name : String
  pin : String
  active : Bool
  device_uuid : Option String
  device_label : Option String
  device_last_seen_at : Option Int
  deriving Repr, DecidableEq

/-- `shifts` row (src/app.py:175).  `clock_out = none` means the shift is
open.  `clock_in` is nullable in the Python object model (the defensive
check in `shift_minutes` guards it) even though the column is declared
non-nullable. -/
structure Shift where
  id : Nat
  employee_id : Nat
  store_id : Nat
  clock_in : Option Int
  clock_out : Option Int
  clock_in_lat : Option ℚ
  clock_in_lng : Option ℚ
  clock_out_lat : Option ℚ
  clock_out_lng : Option ℚ
  clock_in_device_uuid : Option String
  clock_out_device_uuid : Option String
  closed_by_admin : Bool
  admin_closed_by : Option String
  admin_closed_at : Option Int
  admin_close_reason : Option String
  deriving Repr, DecidableEq

/-- `shift_edit_audit` row (src/app.py:227). -/
structure ShiftEditAudit where
  shift_id : Nat
  action : String
  editor : String
  reason : String
  old_clock_in : Option Int
  old_clock_out : Option Int
  new_clock_in : Option Int
  new_clock_out : Option Int
  deriving Repr, DecidableEq

/-- The persistent state the handlers read and write: the store, employee,
shift and audit tables plus the autoincrement counter for shift ids. -/
structure DB where
  stores : List Store
  employees : List Employee
  shifts : List Shift
  audits : List ShiftEditAudit
  nextShiftId : Nat
  deriving Repr, DecidableEq

/-- Accuracy gate bound `max_accuracy_m` (src/app.py:307). -/
def max_accuracy_m : ℚ := 120

/-- Ambiguity threshold `sanity_gap_m` (src/app.py:308). -/
def sanity_gap_m : ℚ := 800

/-- Result of `find_store_for_location` (src/app.py:302): one constructor
per result dict shape, carrying the same diagnostic fields. -/
inductive FindResult where
  | accuracyTooLow (accuracy_m maxAccuracy : ℚ)
  | noStores
  | ambiguousNearest (best_distance_m second_distance_m gap : ℚ)
  | accepted (store : Store) (distance_m : ℚ)
  | outsideGeofence (nearest_store_id : Nat) (nearest_store_name : String)
      (nearest_distance_m required_radius_m : ℚ)
  deriving Repr, DecidableEq

/-- Is the result the `ok: True` dict? -/
def FindResult.isOk : FindResult → Bool
  | .accepted _ _ => true
  | _ => false

/-- The `(distance, store)` pairs sorted ascending by distance
(src/app.py:326-331).  Python `list.sort` is stable; `insertionSort` with
`≤` on the key is stable in the same way. -/
def storeDistances (hav : ℚ → ℚ → ℚ → ℚ → ℚ) (lat lon : ℚ)
    (stores : List Store) : List (ℚ × Store) :=
  List.insertionSort (fun a b => a.1 ≤ b.1)
    (stores.map (fun s => (hav lat lon s.latitude s.longitude, s)))

/-- `find_store_for_location` (src/app.py:302-361), with the store set
passed explicitly (the Python reads it from the session). -/
def find_store_for_location (hav : ℚ → ℚ → ℚ → ℚ → ℚ) (lat lon : ℚ)
    (accuracy_m : Option ℚ) (stores : List Store) : FindResult :=
  let core : FindResult :=
    match storeDistances hav lat lon stores with
    | [] => .noStores
    | (best_d, best_store) :: rest =>
      let ambiguous : Option FindResult :=
        match rest with
        | (second_d, _) :: _ =>
          if second_d - best_d < sanity_gap_m then
            some (.ambiguousNearest best_d second_d sanity_gap_m)
          else none
        | [] => none
      match ambiguous with
      | some r => r
      | none =>
        if best_d ≤ best_store.geofence_radius_m then
          .accepted best_store best_d
        else
          .outsideGeofence best_store.id best_store.name best_d
            best_store.geofence_radius_m
  match accuracy_m with
  | some a => if max_accuracy_m < a then .accuracyTooLow a max_accuracy_m else core
  | none => core

/-- Nearest distance after sorting, for stating the ambiguity claim. -/
def nearest_distance (hav : ℚ → ℚ → ℚ → ℚ → ℚ) (lat lon : ℚ)
    (stores : List Store) : ℚ :=
  ((storeDistances hav lat lon stores).map Prod.fst).getD 0 0

/-- Second-nearest distance after sorting. -/
def second_distance (hav : ℚ → ℚ → ℚ → ℚ → ℚ) (lat lon : ℚ)
    (stores : List Store) : ℚ :=
  ((storeDistances hav lat lon stores).map Prod.fst).getD 1 0

/-- The supplied accuracy passes the gate of src/app.py:313: either absent
or not above `max_accuracy_m`. -/
def PassesAccuracyGate (accuracy_m : Option ℚ) : Prop :=
  ∀ a, accuracy_m = some a → a ≤ max_accuracy_m

/-- `shift_minutes` (src/app.py:403-409): defensive zero when either
timestamp is missing or the difference is non-positive, else whole-minute
floor.  Python floors `total_seconds() // 60`; for a positive difference
this agrees with integer division on `Int`. -/
def shift_minutes (s : Shift) : Nat :=
  match s.clock_in, s.clock_out with
  | some ci, some co =>
    let seconds : Int := co - ci
    if seconds ≤ 0 then 0 else (seconds / 60).toNat
  | _, _ => 0

/-- Is this shift an open shift of employee `eid`?  Mirrors the query filter
`Shift.employee_id == emp.id, Shift.clock_out.is_(None)`. -/
def isOpenFor (eid : Nat) (s : Shift) : Bool :=
  s.employee_id == eid && s.clock_out.isNone

/-- The open shifts of an employee, in table order.  The handlers add
`ORDER BY clock_in DESC` before taking `.first()`; under the one-open-shift
invariant the filtered list has at most one element, so taking the head of
the unsorted filter is the same query. -/
def openShiftsFor (db : DB) (eid : Nat) : List Shift :=
  db.shifts.filter (isOpenFor eid)

/-- `Employee.query.filter_by(pin=pin).first()`. -/
def employeeByPin (db : DB) (pin : String) : Option Employee :=
  db.employees.find? (fun e => e.pin == pin)

/-- `Store.query.get(store_id)`. -/
def storeById (db : DB) (sid : Nat) : Option Store :=
  db.stores.find? (fun s => s.id == sid)

/-- `Shift.query.get(shift_id)`. -/
def shiftById (db : DB) (sid : Nat) : Option Shift :=
  db.shifts.find? (fun s => s.id == sid)

/-- `normalize_store_code` (src/app.py:471): strip + lowercase. -/
def normalize_store_code (v : String) : String :=
  v.trim.toLower

/-- `_touch_employee_device` (src/app.py:557): if a device uuid was
supplied, overwrite the employee's bound device and last-seen time
("last write wins"); the label is only overwritten when supplied. -/
def touch_employee_device (db : DB) (eid : Nat) (dev lbl : Option String)
    (now : Int) : DB :=
  match dev with
  | none => db
  | some d =>
    { db with
      employees := db.employees.map fun e =>
        if e.id == eid then
          { e with
            device_uuid := some d
            device_label := match lbl with | some l => some l | none => e.device_label
            device_last_seen_at := some now }
        else e }

/-- `_device_has_other_open_shift` (src/app.py:572): some other employee
has an open shift whose clock-in device is this uuid. -/
def device_has_other_open_shift (db : DB) (dev : String) (eid : Nat) : Bool :=
  db.shifts.any fun s =>
    s.clock_out.isNone && s.clock_in_device_uuid == some dev && s.employee_id != eid

/-- Close shift `sid` in the table by applying `f` to it, leaving every
other row unchanged (the ORM mutates the fetched row in place; ids are
unique in the table). -/
def updateShift (db : DB) (sid : Nat) (f : Shift → Shift) : DB :=
  { db with shifts := db.shifts.map fun t => if t.id == sid then f t else t }

/-- Append a freshly inserted shift, advancing the autoincrement id. -/
def insertShift (db : DB) (s : Shift) : DB :=
  { db with shifts := db.shifts ++ [s], nextShiftId := db.nextShiftId + 1 }

/-- Append an audit row (`db.session.add(audit)`). -/
def insertAudit (db : DB) (a : ShiftEditAudit) : DB :=
  { db with audits := db.audits ++ [a] }

/-- Response of `POST /api/mobile/clock-in` (src/app.py:1011). -/
inductive MobileClockInResult where
  | missingRequiredFields
  | invalidOrInactiveEmployee
  | alreadyClockedIn
  | locationInvalid (r : FindResult)
  | deviceInUse
  | ok (shift_id : Nat) (store_name : String)
  deriving Repr, DecidableEq

/-- `api_mobile_clock_in` (src/app.py:1011-1083).  Auth and JSON decoding
are out of scope; `lat`/`lon` arrive already coerced to numbers. -/
def api_mobile_clock_in (hav : ℚ → ℚ → ℚ → ℚ → ℚ) (db : DB) (now : Int)
    (pin : String) (lat lon : ℚ) (accuracy_m : Option ℚ)
    (dev lbl : Option String) : MobileClockInResult × DB :=
  if pin = "" then (.missingRequiredFields, db)
  else
    match employeeByPin db pin with
    | none => (.invalidOrInactiveEmployee, db)
    | some emp =>
      if !emp.active then (.invalidOrInactiveEmployee, db)
      else
        match openShiftsFor db emp.id with
        | _ :: _ => (.alreadyClockedIn, db)
        | [] =>
          match find_store_for_location hav lat lon accuracy_m db.stores with
          | .accepted store _ =>
            if (match dev with
                | some d => device_has_other_open_shift db d emp.id
                | none => false) then
              (.deviceInUse, db)
            else
              let db1 := touch_employee_device db emp.id dev lbl now
              let sh : Shift :=
                { id := db1.nextShiftId, employee_id := emp.id, store_id := store.id
                  clock_in := some now, clock_out := none
                  clock_in_lat := some lat, clock_in_lng := some lon
                  clock_out_lat := none, clock_out_lng := none
                  clock_in_device_uuid := dev, clock_out_device_uuid := none
                  closed_by_admin := false, admin_closed_by := none
                  admin_closed_at := none, admin_close_reason := none }
              (.ok sh.id store.name, insertShift db1 sh)
          | r => (.locationInvalid r, db)

/-- Response of `POST /api/clockin` (src/app.py:1646). -/
inductive QRClockInResult where
  | missingPinOrStore
  | invalidOrInactiveEmployee
  | invalidStoreCode
  | alreadyClockedIn
  | deviceInUse
  | locationRequired
  | outsideRadius
  | ok (shift_id : Nat)
  deriving Repr, DecidableEq

/-- `api_clockin` (src/app.py:1646-1748): QR-token clock-in that checks the
distance to the scanned store directly against its radius. -/
def api_clockin (hav : ℚ → ℚ → ℚ → ℚ → ℚ) (db : DB) (now : Int)
    (pin qr_raw : String) (loc : Option (ℚ × ℚ))
    (dev lbl : Option String) : QRClockInResult × DB :=
  let qr := normalize_store_code qr_raw
  if pin = "" ∨ qr = "" then (.missingPinOrStore, db)
  else
    match employeeByPin db pin with
    | none => (.invalidOrInactiveEmployee, db)
    | some emp =>
      if !emp.active then (.invalidOrInactiveEmployee, db)
      else
        match db.stores.find? (fun st => st.qr_token.toLower == qr) with
        | none => (.invalidStoreCode, db)
        | some store =>
          match openShiftsFor db emp.id with
          | _ :: _ => (.alreadyClockedIn, db)
          | [] =>
            if (match dev with
                | some d => device_has_other_open_shift db d emp.id
                | none => false) then
              (.deviceInUse, db)
            else
              match loc with
              | none => (.locationRequired, db)
              | some (lat, lng) =>
                if store.geofence_radius_m < hav lat lng store.latitude store.longitude then
                  (.outsideRadius, db)
                else
                  let db1 := touch_employee_device db emp.id dev lbl now
                  let sh : Shift :=
                    { id := db1.nextShiftId, employee_id := emp.id, store_id := store.id
                      clock_in := some now, clock_out := none
                      clock_in_lat := some lat, clock_in_lng := some lng
                      clock_out_lat := none, clock_out_lng := none
                      clock_in_device_uuid := dev, clock_out_device_uuid := none
                      closed_by_admin := false, admin_closed_by := none
                      admin_closed_at := none, admin_close_reason := none }
                  (.ok sh.id, insertShift db1 sh)

/-- Response of `POST /mobile/clock-in` (src/app.py:1554).  Note the two
`ok: True` shapes: `already_clocked_in: True` (existing shift echoed back)
and `already_clocked_in: False` (new shift created). -/
inductive LegacyMobileClockInResult where
  | missingPinOrDeviceUuid
  | missingLatLon
  | invalidPin
  | locationInvalid (r : FindResult)
  | okAlreadyClockedIn (shift_id : Nat)
  | okCreated (shift_id : Nat) (store_id : Nat)
  deriving Repr, DecidableEq

/-- The JSON `ok` field of a `/mobile/clock-in` response. -/
def LegacyMobileClockInResult.isOk : LegacyMobileClockInResult → Bool
  | .okAlreadyClockedIn _ => true
  | .okCreated _ _ => true
  | _ => false

/-- `mobile_clock_in` (src/app.py:1554-1632): resolves the nearest store
first, then — if an open shift already exists — returns an `ok: True`
payload flagged `already_clocked_in: True` instead of an error. -/
def mobile_clock_in (hav : ℚ → ℚ → ℚ → ℚ → ℚ) (db : DB) (now : Int)
    (pin device_uuid : String) (loc : Option (ℚ × ℚ))
    (accuracy_m : Option ℚ) : LegacyMobileClockInResult × DB :=
  if pin = "" ∨ device_uuid = "" then (.missingPinOrDeviceUuid, db)
  else
    match loc with
    | none => (.missingLatLon, db)
    | some (lat, lon) =>
      match db.employees.find? (fun e => e.pin == pin && e.active) with
      | none => (.invalidPin, db)
      | some emp =>
        match find_store_for_location hav lat lon accuracy_m db.stores with
        | .accepted store _ =>
          match openShiftsFor db emp.id with
          | os :: _ => (.okAlreadyClockedIn os.id, db)
          | [] =>
            let sh : Shift :=
              { id := db.nextShiftId, employee_id := emp.id, store_id := store.id
                clock_in := some now, clock_out := none
                clock_in_lat := some lat, clock_in_lng := some lon
                clock_out_lat := none, clock_out_lng := none
                clock_in_device_uuid := some device_uuid, clock_out_device_uuid := none
                closed_by_admin := false, admin_closed_by := none
                admin_closed_at := none, admin_close_reason := none }
            (.okCreated sh.id store.id, insertShift db sh)
        | r => (.locationInvalid r, db)

/-- Response of `POST /api/mobile/clock-out` (src/app.py:1085). -/
inductive MobileClockOutResult where
  | missingRequiredFields
  | invalidOrInactiveEmployee
  | noOpenShift
  | locationInvalid (r : FindResult)
  | wrongStoreLocation
  | ok (shift_id : Nat) (minutes : Nat)
  deriving Repr, DecidableEq

/-- `api_mobile_clock_out` (src/app.py:1085-1152): note that it calls
`find_store_for_location` — a fresh nearest-store search — and then
requires the resolved store to equal the clock-in store. -/
def api_mobile_clock_out (hav : ℚ → ℚ → ℚ → ℚ → ℚ) (db : DB) (now : Int)
    (pin : String) (lat lon : ℚ) (accuracy_m : Option ℚ)
    (dev lbl : Option String) : MobileClockOutResult × DB :=
  if pin = "" then (.missingRequiredFields, db)
  else
    match employeeByPin db pin with
    | none => (.invalidOrInactiveEmployee, db)
    | some emp =>
      if !emp.active then (.invalidOrInactiveEmployee, db)
      else
        match openShiftsFor db emp.id with
        | [] => (.noOpenShift, db)
        | os :: _ =>
          let store := storeById db os.store_id
          match find_store_for_location hav lat lon accuracy_m db.stores with
          | .accepted rstore _ =>
            if (match store with
                | some st => rstore.id != st.id
                | none => false) then
              (.wrongStoreLocation, db)
            else
              let db1 := touch_employee_device db emp.id dev lbl now
              let db2 := updateShift db1 os.id fun t =>
                { t with clock_out := some now, clock_out_lat := some lat
                         clock_out_lng := some lon, clock_out_device_uuid := dev }
              (.ok os.id (shift_minutes { os with clock_out := some now }), db2)
          | r => (.locationInvalid r, db)

/-- Response of `POST /api/clockout` (src/app.py:1750). -/
inductive ClockOutResult where
  | missingPin
  | invalidOrInactiveEmployee
  | noOpenShift
  | locationRequired
  | storeRowMissing
  | outsideRadius
  | ok (shift_id : Nat) (minutes : Nat)
  deriving Repr, DecidableEq

/-- `api_clockout` (src/app.py:1750-1830): self-service clock-out that
measures the distance to the clock-in shift's own store and compares it to
that store's radius (no nearest-store search).  `storeRowMissing` models
the unhandled exception when the store row was deleted (no state change
is committed on that path). -/
def api_clockout (hav : ℚ → ℚ → ℚ → ℚ → ℚ) (db : DB) (now : Int)
    (pin : String) (loc : Option (ℚ × ℚ))
    (dev lbl : Option String) : ClockOutResult × DB :=
  if pin = "" then (.missingPin, db)
  else
    match employeeByPin db pin with
    | none => (.invalidOrInactiveEmployee, db)
    | some emp =>
      if !emp.active then (.invalidOrInactiveEmployee, db)
      else
        match openShiftsFor db emp.id with
        | [] => (.noOpenShift, db)
        | os :: _ =>
          match loc with
          | none => (.locationRequired, db)
          | some (lat, lng) =>
            match storeById db os.store_id with
            | none => (.storeRowMissing, db)
            | some store =>
              if store.geofence_radius_m < hav lat lng store.latitude store.longitude then
                (.outsideRadius, db)
              else
                let db1 := touch_employee_device db emp.id dev lbl now
                let db2 := updateShift db1 os.id fun t =>
                  { t with clock_out := some now, clock_out_lat := some lat
                           clock_out_lng := some lng, clock_out_device_uuid := dev }
                (.ok os.id (shift_minutes { os with clock_out := some now }), db2)

/-- Buffer added to the radius by the auto-exit close (src/app.py:1216). -/
def auto_exit_buffer_m : ℚ := 15

/-- Response of `POST /api/mobile/auto-exit-close` (src/app.py:1154). -/
inductive AutoExitResult where
  | missingRequiredFields
  | invalidOrInactiveEmployee
  | okAlreadyClosed
  | storeNotFound
  | accuracyTooLow (accuracy_m : ℚ)
  | stillInsideOrNearStore (dist_m radius_m buffer_m : ℚ)
  | okClosed (shift_id : Nat) (minutes : Nat)
  deriving Repr, DecidableEq

/-- The JSON `ok` field of an auto-exit-close response. -/
def AutoExitResult.isOk : AutoExitResult → Bool
  | .okAlreadyClosed => true
  | .okClosed _ _ => true
  | _ => false

/-- The reason string of the auto-exit close (src/app.py:1171):
`(data.get("reason") or "Auto-close after EXIT").strip()`. -/
def autoExitReason (reasonArg : Option String) : String :=
  match reasonArg with
  | none => "Auto-close after EXIT"
  | some r => if r = "" then "Auto-close after EXIT" else r.trim

/-- `api_mobile_auto_exit_close` (src/app.py:1154-1278). -/
def api_mobile_auto_exit_close (hav : ℚ → ℚ → ℚ → ℚ → ℚ) (db : DB) (now : Int)
    (pin : String) (lat lon : ℚ) (accuracy_m : Option ℚ)
    (dev lbl : Option String) (reasonArg : Option String) : AutoExitResult × DB :=
  let reason : String := autoExitReason reasonArg
  if pin = "" then (.missingRequiredFields, db)
  else
    match employeeByPin db pin with
    | none => (.invalidOrInactiveEmployee, db)
    | some emp =>
      if !emp.active then (.invalidOrInactiveEmployee, db)
      else
        match openShiftsFor db emp.id with
        | [] => (.okAlreadyClosed, db)
        | os :: _ =>
          match storeById db os.store_id with
          | none => (.storeNotFound, db)
          | some store =>
            let dist_m := hav lat lon store.latitude store.longitude
            if (match accuracy_m with
                | some a => decide (120 < a)
                | none => false) then
              (.accuracyTooLow (accuracy_m.getD 0), db)
            else if dist_m ≤ store.geofence_radius_m + auto_exit_buffer_m then
              (.stillInsideOrNearStore dist_m store.geofence_radius_m auto_exit_buffer_m, db)
            else
              let db1 := touch_employee_device db emp.id dev lbl now
              let db2 := updateShift db1 os.id fun t =>
                { t with clock_out := some now, clock_out_lat := some lat
                         clock_out_lng := some lon, clock_out_device_uuid := dev
                         closed_by_admin := true, admin_closed_by := some "AUTO_EXIT"
                         admin_closed_at := some now, admin_close_reason := some reason }
              let audit : ShiftEditAudit :=
                { shift_id := os.id, action := "auto_exit_close", editor := "AUTO_EXIT"
                  reason := reason, old_clock_in := os.clock_in, old_clock_out := os.clock_out
                  new_clock_in := os.clock_in, new_clock_out := some now }
              (.okClosed os.id (shift_minutes { os with clock_out := some now }),
               insertAudit db2 audit)

/-- Response of `POST /admin/shifts/close` (src/app.py:2545). -/
inductive AdminCloseResult where
  | notFound
  | alreadyClosed
  | closed
  deriving Repr, DecidableEq

/-- `admin_close_shift` (src/app.py:2545-2563): the plain admin close of an
open shift.  It sets `clock_out = now` and commits — it writes no
`ShiftEditAudit` row and touches no override field. -/
def admin_close_shift (db : DB) (now : Int) (shift_id : Nat) :
    AdminCloseResult × DB :=
  match shiftById db shift_id with
  | none => (.notFound, db)
  | some s =>
    match s.clock_out with
    | some _ => (.alreadyClosed, db)
    | none => (.closed, updateShift db shift_id fun t => { t with clock_out := some now })

/-- `admin_force_close_shift` (src/app.py:2565-2605): close with override
fields and a `force_close` audit row in the same commit.  `actor` is the
logged-in admin user name. -/
def admin_force_close_shift (db : DB) (now : Int) (shift_id : Nat)
    (reason actor : String) : AdminCloseResult × DB :=
  match shiftById db shift_id with
  | none => (.notFound, db)
  | some s =>
    match s.clock_out with
    | some _ => (.alreadyClosed, db)
    | none =>
      let db1 := updateShift db shift_id fun t =>
        { t with clock_out := some now, closed_by_admin := true
                 admin_closed_by := some actor, admin_closed_at := some now
                 admin_close_reason := if reason = "" then none else some reason }
      let audit : ShiftEditAudit :=
        { shift_id := s.id, action := "force_close", editor := actor
          reason := if reason = "" then "Force close (no reason provided)" else reason
          old_clock_in := s.clock_in, old_clock_out := s.clock_out
          new_clock_in := s.clock_in, new_clock_out := some now }
      (.closed, insertAudit db1 audit)

/-- Response of `POST /admin/shifts/new` (src/app.py:2607). -/
inductive AdminShiftNewResult where
  | missingEmployeeOrStore
  | reasonRequired
  | invalidClockIn
  | invalidRange
  | created (shift_id : Nat)
  deriving Repr, DecidableEq

/-- `admin_shift_new` (src/app.py:2607-2670): manual shift creation.
`cin`/`cout` are the results of `parse_local_datetime` on the submitted
fields (`none` = absent or unparseable; an absent clock-out leaves the new
shift OPEN).  The shift is committed first, then the `create` audit row in
a second commit. -/
def admin_shift_new (db : DB) (now : Int) (actor : String)
    (employee_id store_id : Option Nat) (cin cout : Option Int)
    (reason : String) : AdminShiftNewResult × DB :=
  match employee_id, store_id with
  | some eid, some sid =>
    if reason = "" then (.reasonRequired, db)
    else
      match cin with
      | none => (.invalidClockIn, db)
      | some ci =>
        if (match cout with
            | some co => decide (co ≤ ci)
            | none => false) then
          (.invalidRange, db)
        else
          let sh : Shift :=
            { id := db.nextShiftId, employee_id := eid, store_id := sid
              clock_in := some ci, clock_out := cout
              clock_in_lat := none, clock_in_lng := none
              clock_out_lat := none, clock_out_lng := none
              clock_in_device_uuid := none, clock_out_device_uuid := none
              closed_by_admin := true, admin_closed_by := some actor
              admin_closed_at := some now, admin_close_reason := some reason }
          let db1 := insertShift db sh
          let audit : ShiftEditAudit :=
            { shift_id := sh.id, action := "create", editor := actor
              reason := reason, old_clock_in := none, old_clock_out := none
              new_clock_in := some ci, new_clock_out := cout }
          (.created sh.id, insertAudit db1 audit)
  | _, _ => (.missingEmployeeOrStore, db)

/-- Response of `POST /admin/shifts/<id>/edit` (src/app.py:2672). -/
inductive AdminShiftEditResult where
  | notFound
  | reasonRequired
  | invalidClockIn
  | invalidRange
  | updated
  deriving Repr, DecidableEq

/-- `admin_shift_edit` (src/app.py:2672-2736): rewrite a shift's employee,
store and timestamps.  An absent clock-out CLEARS `clock_out`, reopening
the shift.  Writes one `edit` audit row in the same commit. -/
def admin_shift_edit (db : DB) (now : Int) (actor : String) (shift_id : Nat)
    (employee_id store_id : Option Nat) (cin cout : Option Int)
    (reason : String) : AdminShiftEditResult × DB :=
  match shiftById db shift_id with
  | none => (.notFound, db)
  | some s =>
    if reason = "" then (.reasonRequired, db)
    else
      match cin with
      | none => (.invalidClockIn, db)
      | some ci =>
        if (match cout with
            | some co => decide (co ≤ ci)
            | none => false) then
          (.invalidRange, db)
        else
          let db1 := updateShift db shift_id fun t =>
            { t with
              employee_id := employee_id.getD t.employee_id
              store_id := store_id.getD t.store_id
              clock_in := some ci, clock_out := cout
              closed_by_admin := true, admin_closed_by := some actor
              admin_closed_at := some now, admin_close_reason := some reason }
          let audit : ShiftEditAudit :=
            { shift_id := s.id, action := "edit", editor := actor
              reason := reason, old_clock_in := s.clock_in, old_clock_out := s.clock_out
              new_clock_in := some ci, new_clock_out := cout }
          (.updated, insertAudit db1 audit)

/-- A local-timezone wall-clock instant: a calendar day index (day 0 is a
Monday, matching Python's `date.weekday()` with Monday = 0) and the
microseconds elapsed since local midnight. -/
structure LocalDT where
  day : Int
  usec : Nat
  deriving Repr, DecidableEq

/-- `datetime.time.max` as microseconds since midnight (23:59:59.999999). -/
def dtime_max_usec : Nat := 86399999999

/-- Python `date.weekday()`: Monday = 0 … Sunday = 6. -/
def weekday (day : Int) : Int := day % 7

/-- `last_completed_payroll_week` (src/app.py:443-457): the Monday-to-Sunday
week immediately before the week containing the reference instant, as local
midnight and local end-of-day bounds. -/
def last_completed_payroll_week (ref : LocalDT) : LocalDT × LocalDT :=
  let w := weekday ref.day
  let this_monday := ref.day - w
  let last_monday := this_monday - 7
  let last_sunday := last_monday + 6
  (⟨last_monday, 0⟩, ⟨last_sunday, dtime_max_usec⟩)

/-- The payroll window selection of `admin_payroll` (src/app.py:2758-2772).
Each argument models one query parameter: `none` = absent or empty string,
`some none` = supplied but rejected by `strptime("%Y-%m-%d")`,
`some (some d)` = supplied and parsed to local calendar day `d`. -/
def payroll_window (start_arg end_arg : Option (Option Int)) (ref : LocalDT) :
    LocalDT × LocalDT :=
  match start_arg, end_arg with
  | some sp, some ep =>
    match sp, ep with
    | some sd, some ed => (⟨sd, 0⟩, ⟨ed, dtime_max_usec⟩)
    | _, _ => last_completed_payroll_week ref
  | _, _ => last_completed_payroll_week ref

/-- Dictionary lookup with default 0: `d.get(k, 0)` (first match wins;
`alBump` keeps keys unique). -/
def alGet {K : Type} [DecidableEq K] : List (K × Nat) → K → Nat
  | [], _ => 0
  | (k1, v1) :: rest, k => if k1 = k then v1 else alGet rest k

/-- Dictionary accumulate: `d[k] = d.get(k, 0) + v`, preserving insertion
order as Python dicts do. -/
def alBump {K : Type} [DecidableEq K] : List (K × Nat) → K → Nat → List (K × Nat)
  | [], k, v => [(k, v)]
  | (k1, v1) :: rest, k, v =>
    if k = k1 then (k1, v1 + v) :: rest else (k1, v1) :: alBump rest k v

/-- The window filter of `admin_payroll` (src/app.py:2776-2780): closed
shifts whose clock-out lies in `[q_start, q_end]` (UTC).  The `ORDER BY
clock_out` affects only presentation order, not membership or totals. -/
def payroll_filter (shifts : List Shift) (q_start q_end : Int) : List Shift :=
  shifts.filter fun s =>
    match s.clock_out with
    | some t => decide (q_start ≤ t ∧ t ≤ q_end)
    | none => false

/-- The weekday bucket key of a shift (src/app.py:2801-2802): the weekday of
the CLOCK-IN converted to local time.  `localDay` models
`utc_naive_to_local(·).date()` as a map from UTC epoch seconds to the local
calendar day index.  The clock-in column is non-nullable in the schema; the
`getD` default is never reached for persisted rows. -/
def shiftWeekdayBucket (localDay : Int → Int) (s : Shift) : Int :=
  weekday (localDay (s.clock_in.getD 0))

/-- The aggregates `admin_payroll` builds (src/app.py:2782-2824):
the filtered rows, the per-employee-name minute totals, the
per-(employee, weekday, store) grid (the nested dicts flattened to one
dictionary keyed by the triple), and the grand total. -/
structure PayrollAgg where
  included : List Shift
  totals_by_emp : List (String × Nat)
  weekly_map : List ((String × Int × String) × Nat)
  grand_minutes : Nat
  deriving Repr, DecidableEq

/-- The aggregation loop of `admin_payroll` (src/app.py:2776-2824).
`empName`/`storeName` model the `s.employee.name` / `s.store.name`
relationship lookups; `localDay` models the timezone conversion. -/
def payroll_aggregate (localDay : Int → Int) (empName storeName : Nat → String)
    (shifts : List Shift) (q_start q_end : Int) : PayrollAgg :=
  let included := payroll_filter shifts q_start q_end
  let totals := included.foldl
    (fun m s => alBump m (empName s.employee_id) (shift_minutes s)) []
  let weekly := included.foldl
    (fun m s =>
      alBump m (empName s.employee_id, shiftWeekdayBucket localDay s,
        storeName s.store_id) (shift_minutes s)) []
  { included := included
    totals_by_emp := totals
    weekly_map := weekly
    grand_minutes := (totals.map Prod.snd).sum }

/-- The at-most-one-open-shift invariant (spec §3, §8): for every employee,
the number of Shift rows with a null clock-out is 0 or 1. -/
def OneOpenShiftInv (db : DB) : Prop :=
  ∀ eid, (openShiftsFor db eid).length ≤ 1

/-- Concrete stand-in for `haversine_m` in witnesses and counterexamples:
distance depends only on the latitudes, `|lat2 - lat1| * 111000` (about one
degree of latitude ≈ 111 km along a meridian, realizable by the actual
haversine for points on one meridian). -/
def flatDist (lat1 _lon1 lat2 _lon2 : ℚ) : ℚ := |lat2 - lat1| * 111000

/-- Test fixture: store at the origin with a 200 m radius. -/
def storeA : Store :=
  { id := 1, name := "Store A", qr_token := "store-a", latitude := 0,
    longitude := 0, geofence_radius_m := 200 }

/-- Test fixture: a second store 500 m north of `storeA` under `flatDist`
(`111000 / 222 = 500`). -/
def storeB : Store :=
  { id := 2, name := "Store B", qr_token := "store-b", latitude := 1/222,
    longitude := 0, geofence_radius_m := 150 }

/-- Test fixture: active employee with PIN 1111. -/
def empAlice : Employee :=
  { id := 1, name := "Alice", pin := "1111", active := true,
    device_uuid := none, device_label := none, device_last_seen_at := none }

/-- Test fixture: an open shift of `empAlice` at `storeA`. -/
def openShift1 : Shift :=
  { id := 1, employee_id := 1, store_id := 1, clock_in := some 100,
    clock_out := none, clock_in_lat := some 0, clock_in_lng := some 0,
    clock_out_lat := none, clock_out_lng := none,
    clock_in_device_uuid := some "dev-1", clock_out_device_uuid := none,
    closed_by_admin := false, admin_closed_by := none,
    admin_closed_at := none, admin_close_reason := none }

/-- Test fixture: one store, Alice, no shifts. -/
def dbNoShift : DB :=
  { stores := [storeA], employees := [empAlice], shifts := [], audits := [],
    nextShiftId := 1 }

/-- Test fixture: one store, Alice with an open shift at it. -/
def dbOpenSingle : DB :=
  { stores := [storeA], employees := [empAlice], shifts := [openShift1],
    audits := [], nextShiftId := 2 }

/-- Test fixture: two nearby stores, Alice with an open shift at `storeA`. -/
def dbOpenTwoStores : DB :=
  { stores := [storeA, storeB], employees := [empAlice], shifts := [openShift1],
    audits := [], nextShiftId := 2 }

/-- Test fixture: the spec's worked duration example — clock-in
2024-01-01T09:00:00Z (epoch 1704099600), clock-out 2024-01-01T17:30:45Z
(epoch 1704130245), 30645 seconds = 510.75 minutes. -/
def shiftJan1 : Shift :=
  { id := 7, employee_id := 1, store_id := 1, clock_in := some 1704099600,
    clock_out := some 1704130245, clock_in_lat := none, clock_in_lng := none,
    clock_out_lat := none, clock_out_lng := none,
    clock_in_device_uuid := none, clock_out_device_uuid := none,
    closed_by_admin := false, admin_closed_by := none,
    admin_closed_at := none, admin_close_reason := none }

/-! ## Theorems -/

/-- **C6** — `shift_minutes` returns 0 when either timestamp is missing or
the difference is non-positive (never negative: the result is a `Nat`), and
otherwise the whole-minute floor of the elapsed time; the spec's worked
example 2024-01-01T09:00:00Z → 2024-01-01T17:30:45Z yields 510 minutes. -/
theorem shift_minutes_correct (s : Shift) :
    ((s.clock_in = none ∨ s.clock_out = none) → shift_minutes s = 0) ∧
    (∀ ci co, s.clock_in = some ci → s.clock_out = some co → co - ci ≤ 0 →
      shift_minutes s = 0) ∧
    (∀ ci co, s.clock_in = some ci → s.clock_out = some co → 0 < co - ci →
      shift_minutes s = ((co - ci) / 60).toNat) ∧
    shift_minutes shiftJan1 = 510 := by
  refine ⟨?_, ?_, ?_, by decide⟩
  · intro h
    cases hci : s.clock_in with
    | none => simp [shift_minutes, hci]
    | some ci =>
      cases hco : s.clock_out with
      | none => simp [shift_minutes, hci, hco]
      | some co => rcases h with h | h <;> simp_all
  · intro ci co hci hco hle
    simp [shift_minutes, hci, hco, hle]
  · intro ci co hci hco hpos
    simp [shift_minutes, hci, hco, not_le.mpr hpos]

/-- Witness for C6 at concrete shifts: an open shift reports 0 and the
worked example reports 510. -/
theorem shift_minutes_correct_witness :
    shift_minutes openShift1 = 0 ∧ shift_minutes shiftJan1 = 510 :=
  ⟨(shift_minutes_correct openShift1).1 (Or.inr rfl),
   (shift_minutes_correct openShift1).2.2.2⟩

/-- **C8** — with no explicit date range (or a malformed one) the payroll
window is the most recently fully completed Monday–Sunday local week: it
starts on the Monday of the previous week at local midnight, ends on the
following Sunday at local end-of-day, and lies strictly before the Monday
of the week containing the reference moment. -/
theorem default_payroll_window_correct (start_arg end_arg : Option (Option Int))
    (ref : LocalDT)
    (h : ∀ sd ed, ¬(start_arg = some (some sd) ∧ end_arg = some (some ed))) :
    payroll_window start_arg end_arg ref = last_completed_payroll_week ref ∧
    (last_completed_payroll_week ref).1.day = ref.day - weekday ref.day - 7 ∧
    weekday (last_completed_payroll_week ref).1.day = 0 ∧
    (last_completed_payroll_week ref).2.day = (last_completed_payroll_week ref).1.day + 6 ∧
    weekday (last_completed_payroll_week ref).2.day = 6 ∧
    (last_completed_payroll_week ref).1.usec = 0 ∧
    (last_completed_payroll_week ref).2.usec = dtime_max_usec ∧
    (last_completed_payroll_week ref).2.day < ref.day - weekday ref.day ∧
    ref.day - weekday ref.day ≤ ref.day ∧
    ref.day < ref.day - weekday ref.day + 7 := by
  have hmod : 0 ≤ ref.day % 7 ∧ ref.day % 7 < 7 := by omega
  refine ⟨?_, ?_, ?_, ?_, ?_, rfl, rfl, ?_, ?_, ?_⟩
  · rcases start_arg with _ | sp
    · rfl
    · rcases end_arg with _ | ep
      · rfl
      · rcases sp with _ | sd
        · rfl
        · rcases ep with _ | ed
          · rfl
          · exact absurd ⟨rfl, rfl⟩ (h sd ed)
  · simp only [last_completed_payroll_week, weekday]
  · simp only [last_completed_payroll_week, weekday]; omega
  · simp only [last_completed_payroll_week]
  · simp only [last_completed_payroll_week, weekday]; omega
  · simp only [last_completed_payroll_week, weekday]; omega
  · simp only [weekday]; omega
  · simp only [weekday]; omega

/-- Witness for C8: on a Wednesday (local day index 9 = week 1, weekday 2)
with no range supplied the window is Monday day 0 through Sunday day 6 of
the previous week. -/
theorem default_payroll_window_correct_witness :
    payroll_window none none ⟨9, 0⟩ = (⟨0, 0⟩, ⟨6, dtime_max_usec⟩) ∧
    weekday 9 = 2 := by
  have h := default_payroll_window_correct none none ⟨9, 0⟩
    (fun sd ed hc => by cases hc.1)
  refine ⟨?_, by decide⟩
  rw [h.1]
  decide

/-- **C10** — auto-exit close for an employee with no open shift returns
the `ok: True, already_closed: True` success payload (not a failure code)
and leaves the database — shifts, audits, everything — unchanged. -/
theorem auto_exit_no_open_shift_correct
    (hav : ℚ → ℚ → ℚ → ℚ → ℚ) (db : DB) (now : Int) (pin : String)
    (lat lon : ℚ) (accuracy_m : Option ℚ) (dev lbl : Option String)
    (reasonArg : Option String) (emp : Employee)
    (hpin : pin ≠ "")
    (hemp : employeeByPin db pin = some emp)
    (hact : emp.active = true)
    (hopen : openShiftsFor db emp.id = []) :
    api_mobile_auto_exit_close hav db now pin lat lon accuracy_m dev lbl reasonArg
      = (.okAlreadyClosed, db) ∧
    AutoExitResult.okAlreadyClosed.isOk = true := by
  refine ⟨?_, rfl⟩
  simp [api_mobile_auto_exit_close, hpin, hemp, hact, hopen]

/-- Witness for C10: Alice has no open shift; auto-exit close succeeds as
`already_closed` and the database is untouched. -/
theorem auto_exit_no_open_shift_correct_witness :
    api_mobile_auto_exit_close flatDist dbNoShift 1000 "1111" 0 0 none none none none
      = (.okAlreadyClosed, dbNoShift) ∧
    AutoExitResult.okAlreadyClosed.isOk = true :=
  auto_exit_no_open_shift_correct flatDist dbNoShift 1000 "1111" 0 0 none none none
    none empAlice (by decide) (by decide) (by decide) (by decide)

/-- **C5** — whenever the accuracy gate passes, at least two stores exist,
and the sorted nearest and second-nearest distances differ by less than the
800 m ambiguity threshold, the resolver returns `AMBIGUOUS_NEAREST`
carrying both distances — with no exception for the nearest store's own
radius (the radius test is only reached when the gap check fails). -/
theorem ambiguous_nearest_correct (hav : ℚ → ℚ → ℚ → ℚ → ℚ) (lat lon : ℚ)
    (accuracy_m : Option ℚ) (stores : List Store)
    (hgate : PassesAccuracyGate accuracy_m)
    (h2 : 2 ≤ stores.length)
    (hgap : second_distance hav lat lon stores - nearest_distance hav lat lon stores
      < sanity_gap_m) :
    find_store_for_location hav lat lon accuracy_m stores =
      .ambiguousNearest (nearest_distance hav lat lon stores)
        (second_distance hav lat lon stores) sanity_gap_m := by
  have hlen : (storeDistances hav lat lon stores).length = stores.length := by
    simp [storeDistances, List.length_insertionSort]
  rcases hL : storeDistances hav lat lon stores with _ | ⟨⟨d0, s0⟩, tl⟩
  · rw [hL] at hlen; simp at hlen; omega
  · rcases tl with _ | ⟨⟨d1, s1⟩, tl2⟩
    · rw [hL] at hlen; simp at hlen; omega
    · have hnd : nearest_distance hav lat lon stores = d0 := by
        simp [nearest_distance, hL]
      have hsd : second_distance hav lat lon stores = d1 := by
        simp [second_distance, hL]
      rw [hnd, hsd] at hgap ⊢
      cases hacc : accuracy_m with
      | none => simp [find_store_for_location, hL, hgap]
      | some a =>
        have ha : ¬ max_accuracy_m < a := not_lt.mpr (hgate a hacc)
        simp [find_store_for_location, hL, hgap, ha]

/-- Witness for C5: two stores 500 m apart under `flatDist`, fix at the
first store's center — inside its 200 m radius — still rejected as
ambiguous with both distances reported. -/
theorem ambiguous_nearest_correct_witness :
    nearest_distance flatDist 0 0 [storeA, storeB] = 0 ∧
    second_distance flatDist 0 0 [storeA, storeB] = 500 ∧
    nearest_distance flatDist 0 0 [storeA, storeB] ≤ storeA.geofence_radius_m ∧
    find_store_for_location flatDist 0 0 none [storeA, storeB] =
      .ambiguousNearest 0 500 sanity_gap_m := by
  have h0 : nearest_distance flatDist 0 0 [storeA, storeB] = 0 := by
    norm_num [nearest_distance, storeDistances, List.insertionSort, List.orderedInsert,
      flatDist, storeA, storeB, abs_of_nonneg]
  have h1 : second_distance flatDist 0 0 [storeA, storeB] = 500 := by
    norm_num [second_distance, storeDistances, List.insertionSort, List.orderedInsert,
      flatDist, storeA, storeB, abs_of_nonneg]
  have h := ambiguous_nearest_correct flatDist 0 0 none [storeA, storeB]
    (fun a ha => by cases ha) (by norm_num)
    (by rw [h0, h1]; norm_num [sanity_gap_m])
  rw [h0, h1] at h
  exact ⟨h0, h1, by rw [h0]; norm_num [storeA], h⟩

/-- `_touch_employee_device` rewrites only the employee table. -/
theorem touch_employee_device_shifts (db : DB) (eid : Nat) (dev lbl : Option String)
    (now : Int) : (touch_employee_device db eid dev lbl now).shifts = db.shifts := by
  cases dev <;> rfl

/-- `_touch_employee_device` leaves the audit table unchanged. -/
theorem touch_employee_device_audits (db : DB) (eid : Nat) (dev lbl : Option String)
    (now : Int) : (touch_employee_device db eid dev lbl now).audits = db.audits := by
  cases dev <;> rfl

/-- Shift lookup is unaffected by the device touch. -/
theorem shiftById_touch (db : DB) (eid : Nat) (dev lbl : Option String) (now : Int)
    (sid : Nat) :
    shiftById (touch_employee_device db eid dev lbl now) sid = shiftById db sid := by
  unfold shiftById; rw [touch_employee_device_shifts]

/-- Open-shift query is unaffected by the device touch. -/
theorem openShiftsFor_touch (db : DB) (eid : Nat) (dev lbl : Option String) (now : Int)
    (eid2 : Nat) :
    openShiftsFor (touch_employee_device db eid dev lbl now) eid2 = openShiftsFor db eid2 := by
  unfold openShiftsFor; rw [touch_employee_device_shifts]

/-- Shift lookup is unaffected by an audit insert. -/
theorem shiftById_insertAudit (db : DB) (a : ShiftEditAudit) (sid : Nat) :
    shiftById (insertAudit db a) sid = shiftById db sid := rfl

/-- Updating row `sid` rewrites exactly that row in the lookup, provided
the update preserves the primary key. -/
theorem shiftById_updateShift (db : DB) (sid : Nat) (f : Shift → Shift) (t0 : Shift)
    (hid : ∀ t, (f t).id = t.id)
    (h : shiftById db sid = some t0) :
    shiftById (updateShift db sid f) sid = some (f t0) := by
  have h2 : db.shifts.find? (fun s => s.id == sid) = some t0 := h
  have hp : (t0.id == sid) = true := by simpa using List.find?_some h2
  show (db.shifts.map _).find? _ = some (f t0)
  rw [List.find?_map]
  have hcomp : ((fun s : Shift => s.id == sid) ∘ fun t => if t.id == sid then f t else t)
      = fun t : Shift => t.id == sid := by
    funext t
    by_cases ht : (t.id == sid) = true
    · simp [Function.comp, ht, hid t]
    · simp [Function.comp, ht]
  have ht : t0.id = sid := by simpa using hp
  rw [hcomp, h2]
  simp [Option.map, ht]

/-- **C9** — auto-exit close with an open shift: an accuracy above 120 m is
rejected as `ACCURACY_TOO_LOW`; a position within the store radius plus the
15 m buffer is rejected as `STILL_INSIDE_OR_NEAR_STORE` with the database
unchanged (shift stays open); and a position beyond radius + buffer closes
the shift with `closed_by_admin = true`, `closed_by = "AUTO_EXIT"` and one
`auto_exit_close` audit row. -/
theorem auto_exit_close_correct (hav : ℚ → ℚ → ℚ → ℚ → ℚ) (db : DB) (now : Int)
    (pin : String) (lat lon : ℚ) (accuracy_m : Option ℚ) (dev lbl : Option String)
    (reasonArg : Option String) (emp : Employee) (os : Shift) (st : Store)
    (hpin : pin ≠ "")
    (hemp : employeeByPin db pin = some emp)
    (hact : emp.active = true)
    (hopen : openShiftsFor db emp.id = [os])
    (hstore : storeById db os.store_id = some st)
    (hfind : shiftById db os.id = some os) :
    (∀ a, accuracy_m = some a → 120 < a →
      api_mobile_auto_exit_close hav db now pin lat lon accuracy_m dev lbl reasonArg
        = (.accuracyTooLow a, db)) ∧
    (PassesAccuracyGate accuracy_m →
      hav lat lon st.latitude st.longitude ≤ st.geofence_radius_m + auto_exit_buffer_m →
      api_mobile_auto_exit_close hav db now pin lat lon accuracy_m dev lbl reasonArg
        = (.stillInsideOrNearStore (hav lat lon st.latitude st.longitude)
            st.geofence_radius_m auto_exit_buffer_m, db)) ∧
    (PassesAccuracyGate accuracy_m →
      st.geofence_radius_m + auto_exit_buffer_m < hav lat lon st.latitude st.longitude →
      (api_mobile_auto_exit_close hav db now pin lat lon accuracy_m dev lbl reasonArg).1
        = .okClosed os.id (shift_minutes { os with clock_out := some now }) ∧
      shiftById
        (api_mobile_auto_exit_close hav db now pin lat lon accuracy_m dev lbl reasonArg).2
        os.id
        = some { os with
                 clock_out := some now, clock_out_lat := some lat,
                 clock_out_lng := some lon, clock_out_device_uuid := dev,
                 closed_by_admin := true, admin_closed_by := some "AUTO_EXIT",
                 admin_closed_at := some now,
                 admin_close_reason := some (autoExitReason reasonArg) } ∧
      (api_mobile_auto_exit_close hav db now pin lat lon accuracy_m dev lbl reasonArg).2.audits
        = db.audits ++ [{ shift_id := os.id, action := "auto_exit_close",
                          editor := "AUTO_EXIT", reason := autoExitReason reasonArg,
                          old_clock_in := os.clock_in, old_clock_out := os.clock_out,
                          new_clock_in := os.clock_in, new_clock_out := some now }]) := by
  refine ⟨?_, ?_, ?_⟩
  · intro a ha hgt
    subst ha
    simp [api_mobile_auto_exit_close, hpin, hemp, hact, hopen, hstore, hgt]
  · intro hgate hnear
    cases accuracy_m with
    | none => simp [api_mobile_auto_exit_close, hpin, hemp, hact, hopen, hstore, hnear]
    | some a =>
      have ha : ¬ (120 : ℚ) < a :=
        not_lt.mpr (by simpa [max_accuracy_m] using hgate a rfl)
      simp [api_mobile_auto_exit_close, hpin, hemp, hact, hopen, hstore, hnear, ha]
  · intro hgate hfar
    have hnle : ¬ hav lat lon st.latitude st.longitude
        ≤ st.geofence_radius_m + auto_exit_buffer_m := not_le.mpr hfar
    have hkey : api_mobile_auto_exit_close hav db now pin lat lon accuracy_m dev lbl reasonArg
        = (.okClosed os.id (shift_minutes { os with clock_out := some now }),
           insertAudit (updateShift (touch_employee_device db emp.id dev lbl now) os.id
             (fun t => { t with
                         clock_out := some now, clock_out_lat := some lat,
                         clock_out_lng := some lon, clock_out_device_uuid := dev,
                         closed_by_admin := true, admin_closed_by := some "AUTO_EXIT",
                         admin_closed_at := some now,
                         admin_close_reason := some (autoExitReason reasonArg) }))
             { shift_id := os.id, action := "auto_exit_close", editor := "AUTO_EXIT",
               reason := autoExitReason reasonArg, old_clock_in := os.clock_in,
               old_clock_out := os.clock_out, new_clock_in := os.clock_in,
               new_clock_out := some now }) := by
      cases accuracy_m with
      | none => simp [api_mobile_auto_exit_close, hpin, hemp, hact, hopen, hstore, hnle]
      | some a =>
        have ha : ¬ (120 : ℚ) < a :=
          not_lt.mpr (by simpa [max_accuracy_m] using hgate a rfl)
        simp [api_mobile_auto_exit_close, hpin, hemp, hact, hopen, hstore, hnle, ha]
    rw [hkey]
    refine ⟨rfl, ?_, ?_⟩
    · rw [shiftById_insertAudit]
      have hfind2 : shiftById (touch_employee_device db emp.id dev lbl now) os.id
          = some os := by rw [shiftById_touch]; exact hfind
      exact shiftById_updateShift _ _ _ _ (fun t => rfl) hfind2
    · simp [insertAudit, updateShift, touch_employee_device_audits]

/-- Witness for C9: Alice's open shift at `storeA`, exit fix one degree
north (111000 m away under `flatDist`, beyond 200 m + 15 m): the shift is
closed as `AUTO_EXIT` with one `auto_exit_close` audit row. -/
theorem auto_exit_close_correct_witness :
    (api_mobile_auto_exit_close flatDist dbOpenSingle 1000 "1111" 1 0 none none none none).1
      = .okClosed openShift1.id
          (shift_minutes { openShift1 with clock_out := some 1000 }) ∧
    shiftById
      (api_mobile_auto_exit_close flatDist dbOpenSingle 1000 "1111" 1 0 none none none none).2
      openShift1.id
      = some { openShift1 with
               clock_out := some 1000, clock_out_lat := some 1,
               clock_out_lng := some 0, clock_out_device_uuid := none,
               closed_by_admin := true, admin_closed_by := some "AUTO_EXIT",
               admin_closed_at := some 1000,
               admin_close_reason := some (autoExitReason none) } ∧
    (api_mobile_auto_exit_close flatDist dbOpenSingle 1000 "1111" 1 0 none none none none).2.audits
      = dbOpenSingle.audits
        ++ [{ shift_id := openShift1.id, action := "auto_exit_close",
              editor := "AUTO_EXIT", reason := autoExitReason none,
              old_clock_in := openShift1.clock_in, old_clock_out := openShift1.clock_out,
              new_clock_in := openShift1.clock_in, new_clock_out := some 1000 }] := by
  have hfar : storeA.geofence_radius_m + auto_exit_buffer_m
      < flatDist 1 0 storeA.latitude storeA.longitude := by
    norm_num [flatDist, storeA, auto_exit_buffer_m]
  exact (auto_exit_close_correct flatDist dbOpenSingle 1000 "1111" 1 0 none none none
    none empAlice openShift1 storeA (by decide) rfl rfl rfl rfl rfl).2.2
    (fun a ha => by cases ha) hfar

/-- **C3 (amended)** — clock-out with an open shift: `api_clockout`
validates the submitted location against the geofence of the store recorded
at clock-in (outside it fails and the shift stays open; inside it closes the
shift recording time, coordinates and device id).  `api_mobile_clock_out`,
however, performs a fresh nearest-store resolution: any resolver rejection
is surfaced as `LOCATION_INVALID` even when the fix is inside the original
store's geofence; resolving to a different store fails as
`WRONG_STORE_LOCATION`; only resolving to the clock-in store closes the
shift with time, coordinates and device id. -/
theorem clock_out_correct (hav : ℚ → ℚ → ℚ → ℚ → ℚ) (db : DB) (now : Int)
    (pin : String) (lat lng : ℚ) (accuracy_m : Option ℚ) (dev lbl : Option String)
    (emp : Employee) (os : Shift) (st : Store)
    (hpin : pin ≠ "")
    (hemp : employeeByPin db pin = some emp)
    (hact : emp.active = true)
    (hopen : openShiftsFor db emp.id = [os])
    (hstore : storeById db os.store_id = some st)
    (hfind : shiftById db os.id = some os) :
    (st.geofence_radius_m < hav lat lng st.latitude st.longitude →
      api_clockout hav db now pin (some (lat, lng)) dev lbl = (.outsideRadius, db)) ∧
    (hav lat lng st.latitude st.longitude ≤ st.geofence_radius_m →
      (api_clockout hav db now pin (some (lat, lng)) dev lbl).1
        = .ok os.id (shift_minutes { os with clock_out := some now }) ∧
      shiftById (api_clockout hav db now pin (some (lat, lng)) dev lbl).2 os.id
        = some { os with
                 clock_out := some now, clock_out_lat := some lat,
                 clock_out_lng := some lng, clock_out_device_uuid := dev }) ∧
    (∀ r, find_store_for_location hav lat lng accuracy_m db.stores = r →
      (∀ s d, r ≠ .accepted s d) →
      api_mobile_clock_out hav db now pin lat lng accuracy_m dev lbl
        = (.locationInvalid r, db)) ∧
    (∀ rstore d, find_store_for_location hav lat lng accuracy_m db.stores
        = .accepted rstore d → rstore.id ≠ st.id →
      api_mobile_clock_out hav db now pin lat lng accuracy_m dev lbl
        = (.wrongStoreLocation, db)) ∧
    (∀ rstore d, find_store_for_location hav lat lng accuracy_m db.stores
        = .accepted rstore d → rstore.id = st.id →
      (api_mobile_clock_out hav db now pin lat lng accuracy_m dev lbl).1
        = .ok os.id (shift_minutes { os with clock_out := some now }) ∧
      shiftById (api_mobile_clock_out hav db now pin lat lng accuracy_m dev lbl).2 os.id
        = some { os with
                 clock_out := some now, clock_out_lat := some lat,
                 clock_out_lng := some lng, clock_out_device_uuid := dev }) := by
  have hfind2 : ∀ dv lb, shiftById (touch_employee_device db emp.id dv lb now) os.id
      = some os := by intro dv lb; rw [shiftById_touch]; exact hfind
  refine ⟨?_, ?_, ?_, ?_, ?_⟩
  · intro hout
    simp [api_clockout, hpin, hemp, hact, hopen, hstore, hout]
  · intro hin
    have hnlt : ¬ st.geofence_radius_m < hav lat lng st.latitude st.longitude :=
      not_lt.mpr hin
    have hkey : api_clockout hav db now pin (some (lat, lng)) dev lbl
        = (.ok os.id (shift_minutes { os with clock_out := some now }),
           updateShift (touch_employee_device db emp.id dev lbl now) os.id
             (fun t => { t with
                         clock_out := some now, clock_out_lat := some lat,
                         clock_out_lng := some lng, clock_out_device_uuid := dev })) := by
      simp [api_clockout, hpin, hemp, hact, hopen, hstore, hnlt]
    rw [hkey]
    exact ⟨rfl, shiftById_updateShift _ _ _ _ (fun t => rfl) (hfind2 dev lbl)⟩
  · intro r hres hnacc
    cases r with
    | accuracyTooLow a m =>
      simp [api_mobile_clock_out, hpin, hemp, hact, hopen, hstore, hres]
    | noStores =>
      simp [api_mobile_clock_out, hpin, hemp, hact, hopen, hstore, hres]
    | ambiguousNearest b s g =>
      simp [api_mobile_clock_out, hpin, hemp, hact, hopen, hstore, hres]
    | outsideGeofence i n d rr =>
      simp [api_mobile_clock_out, hpin, hemp, hact, hopen, hstore, hres]
    | accepted s d => exact absurd rfl (hnacc s d)
  · intro rstore d hres hne
    have hbne : (rstore.id != st.id) = true := by simpa using hne
    simp [api_mobile_clock_out, hpin, hemp, hact, hopen, hstore, hres, hbne]
  · intro rstore d hres heq
    have hbne : (rstore.id != st.id) = false := by simpa using heq
    have hkey : api_mobile_clock_out hav db now pin lat lng accuracy_m dev lbl
        = (.ok os.id (shift_minutes { os with clock_out := some now }),
           updateShift (touch_employee_device db emp.id dev lbl now) os.id
             (fun t => { t with
                         clock_out := some now, clock_out_lat := some lat,
                         clock_out_lng := some lng, clock_out_device_uuid := dev })) := by
      simp [api_mobile_clock_out, hpin, hemp, hact, hopen, hstore, hres, hbne]
    rw [hkey]
    exact ⟨rfl, shiftById_updateShift _ _ _ _ (fun t => rfl) (hfind2 dev lbl)⟩

/-- Witness for C3 (amended): with the single store `storeA`, a clock-out
fix one degree away is rejected with the shift open, and a fix at the store
center reports the closed shift's minutes. -/
theorem clock_out_correct_witness :
    api_clockout flatDist dbOpenSingle 1000 "1111" (some (1, 0)) none none
      = (.outsideRadius, dbOpenSingle) ∧
    (api_clockout flatDist dbOpenSingle 1000 "1111" (some (0, 0)) none none).1
      = .ok openShift1.id (shift_minutes { openShift1 with clock_out := some 1000 }) := by
  have hfar : storeA.geofence_radius_m < flatDist 1 0 storeA.latitude storeA.longitude := by
    norm_num [flatDist, storeA]
  have hin : flatDist 0 0 storeA.latitude storeA.longitude ≤ storeA.geofence_radius_m := by
    norm_num [flatDist, storeA]
  exact ⟨(clock_out_correct flatDist dbOpenSingle 1000 "1111" 1 0 none none none
      empAlice openShift1 storeA (by decide) rfl rfl rfl rfl rfl).1 hfar,
    ((clock_out_correct flatDist dbOpenSingle 1000 "1111" 0 0 none none none
      empAlice openShift1 storeA (by decide) rfl rfl rfl rfl rfl).2.1 hin).1⟩

/-- Counterexample to C3 as stated: Alice's open shift is at `storeA` and
her clock-out fix is at that store's center — inside the clock-in store's
geofence — yet `api_mobile_clock_out` runs a fresh nearest-store search,
hits the two-store ambiguity, and fails with `LOCATION_INVALID`, leaving
the shift open. -/
theorem clock_out_counterexample :
    flatDist 0 0 storeA.latitude storeA.longitude ≤ storeA.geofence_radius_m ∧
    openShiftsFor dbOpenTwoStores empAlice.id = [openShift1] ∧
    openShift1.store_id = storeA.id ∧
    api_mobile_clock_out flatDist dbOpenTwoStores 1000 "1111" 0 0 none none none
      = (.locationInvalid (.ambiguousNearest 0 500 sanity_gap_m), dbOpenTwoStores) := by
  have hres : find_store_for_location flatDist 0 0 none dbOpenTwoStores.stores
      = .ambiguousNearest 0 500 sanity_gap_m := by
    norm_num [find_store_for_location, storeDistances, List.insertionSort,
      List.orderedInsert, flatDist, storeA, storeB, dbOpenTwoStores, sanity_gap_m,
      abs_of_nonneg]
  have hemp : employeeByPin dbOpenTwoStores "1111" = some empAlice := rfl
  have hopen : openShiftsFor dbOpenTwoStores 1 = [openShift1] := rfl
  have hstoreL : storeById dbOpenTwoStores 1 = some storeA := rfl
  refine ⟨by norm_num [flatDist, storeA], rfl, rfl, ?_⟩
  simp [api_mobile_clock_out, hemp, hopen, hstoreL, hres, empAlice, openShift1]

/-- **C4 (amended)** — for an employee with an open shift, no clock-in
endpoint creates a new Shift row or modifies the open one:
`api_mobile_clock_in` and `api_clockin` reject with the
`ALREADY_CLOCKED_IN` failure, but `/mobile/clock-in` — which resolves the
location first — answers with an `ok: True` payload flagged
`already_clocked_in` echoing the open shift, not a failure code. -/
theorem already_clocked_in_correct (hav : ℚ → ℚ → ℚ → ℚ → ℚ) (db : DB) (now : Int)
    (pin qr_raw device_uuid : String) (lat lon : ℚ) (loc : Option (ℚ × ℚ))
    (accuracy_m : Option ℚ) (dev lbl : Option String)
    (emp : Employee) (os : Shift) (rest : List Shift)
    (hpin : pin ≠ "")
    (hemp : employeeByPin db pin = some emp)
    (hact : emp.active = true)
    (hopen : openShiftsFor db emp.id = os :: rest) :
    (api_mobile_clock_in hav db now pin lat lon accuracy_m dev lbl
      = (.alreadyClockedIn, db)) ∧
    (normalize_store_code qr_raw ≠ "" →
      (∃ store, db.stores.find?
        (fun st => st.qr_token.toLower == normalize_store_code qr_raw) = some store) →
      api_clockin hav db now pin qr_raw loc dev lbl = (.alreadyClockedIn, db)) ∧
    (device_uuid ≠ "" →
      db.employees.find? (fun e => e.pin == pin && e.active) = some emp →
      ∀ rstore d, find_store_for_location hav lat lon accuracy_m db.stores
        = .accepted rstore d →
      mobile_clock_in hav db now pin device_uuid (some (lat, lon)) accuracy_m
        = (.okAlreadyClockedIn os.id, db) ∧
      (LegacyMobileClockInResult.okAlreadyClockedIn os.id).isOk = true) := by
  refine ⟨?_, ?_, ?_⟩
  · simp [api_mobile_clock_in, hpin, hemp, hact, hopen]
  · rintro hqr ⟨store, hst⟩
    simp [api_clockin, hpin, hqr, hemp, hact, hst, hopen]
  · intro hdev hemp2 rstore d hres
    exact ⟨by simp [mobile_clock_in, hpin, hdev, hemp2, hres, hopen], rfl⟩

/-- Witness for C4 (amended): with Alice's open shift, `api_mobile_clock_in`
rejects and `/mobile/clock-in` echoes the open shift as a success. -/
theorem already_clocked_in_correct_witness :
    api_mobile_clock_in flatDist dbOpenSingle 1000 "1111" 0 0 none none none
      = (.alreadyClockedIn, dbOpenSingle) ∧
    mobile_clock_in flatDist dbOpenSingle 1000 "1111" "dev-2" (some (0, 0)) none
      = (.okAlreadyClockedIn openShift1.id, dbOpenSingle) := by
  have h := already_clocked_in_correct flatDist dbOpenSingle 1000 "1111" "store-a"
    "dev-2" 0 0 (some (0, 0)) none none none empAlice openShift1 []
    (by decide) rfl rfl rfl
  have hres : find_store_for_location flatDist 0 0 none dbOpenSingle.stores
      = .accepted storeA 0 := by
    norm_num [find_store_for_location, storeDistances, List.insertionSort,
      List.orderedInsert, flatDist, storeA, dbOpenSingle, abs_of_nonneg]
  exact ⟨h.1, (h.2.2 (by decide) rfl storeA 0 hres).1⟩

/-- Counterexample to C4 as stated: on `/mobile/clock-in` a further
clock-in attempt with an open shift does NOT return the
`ALREADY_CLOCKED_IN` failure — it returns an `ok: True` payload flagged
`already_clocked_in` (though indeed no new Shift row is created and the
open shift is unchanged). -/
theorem already_clocked_in_counterexample :
    (mobile_clock_in flatDist dbOpenSingle 1000 "1111" "dev-2" (some (0, 0)) none).1
      = .okAlreadyClockedIn openShift1.id ∧
    (LegacyMobileClockInResult.okAlreadyClockedIn openShift1.id).isOk = true ∧
    (mobile_clock_in flatDist dbOpenSingle 1000 "1111" "dev-2" (some (0, 0)) none).2
      = dbOpenSingle := by
  have hres : find_store_for_location flatDist 0 0 none dbOpenSingle.stores
      = .accepted storeA 0 := by
    norm_num [find_store_for_location, storeDistances, List.insertionSort,
      List.orderedInsert, flatDist, storeA, dbOpenSingle, abs_of_nonneg]
  have hemp2 : dbOpenSingle.employees.find? (fun e => e.pin == "1111" && e.active)
      = some empAlice := rfl
  have hopen2 : openShiftsFor dbOpenSingle 1 = [openShift1] := rfl
  refine ⟨?_, rfl, ?_⟩ <;>
    simp [mobile_clock_in, hres, hemp2, hopen2, empAlice]

/-- **C2 (amended)** — admin force close, admin edit, admin manual create
and auto-exit close each append exactly one `ShiftEditAudit` row for the
mutated shift in the same state update; the plain admin close of an open
shift (`admin_close_shift`) performs the mutation but appends NO audit
row.  (Commit atomicity is outside this model; in the code, manual create
commits the shift and its audit in two separate commits.) -/
theorem audit_rows_correct (hav : ℚ → ℚ → ℚ → ℚ → ℚ) (db : DB) (now : Int)
    (sid : Nat) (reason actor pin : String) (lat lon : ℚ)
    (accuracy_m : Option ℚ) (dev lbl reasonArg : Option String)
    (eid2 stid2 : Option Nat) (ci : Int) (cout : Option Int)
    (emp : Employee) (os : Shift) (st : Store) :
    (∀ s, shiftById db sid = some s → s.clock_out = none →
      (admin_force_close_shift db now sid reason actor).1 = .closed ∧
      (admin_force_close_shift db now sid reason actor).2.audits
        = db.audits ++ [{ shift_id := s.id, action := "force_close", editor := actor,
                          reason := if reason = "" then
                            "Force close (no reason provided)" else reason,
                          old_clock_in := s.clock_in, old_clock_out := s.clock_out,
                          new_clock_in := s.clock_in, new_clock_out := some now }]) ∧
    (pin ≠ "" → employeeByPin db pin = some emp → emp.active = true →
      openShiftsFor db emp.id = [os] → storeById db os.store_id = some st →
      PassesAccuracyGate accuracy_m →
      st.geofence_radius_m + auto_exit_buffer_m < hav lat lon st.latitude st.longitude →
      (api_mobile_auto_exit_close hav db now pin lat lon accuracy_m dev lbl reasonArg).2.audits
        = db.audits ++ [{ shift_id := os.id, action := "auto_exit_close",
                          editor := "AUTO_EXIT", reason := autoExitReason reasonArg,
                          old_clock_in := os.clock_in, old_clock_out := os.clock_out,
                          new_clock_in := os.clock_in, new_clock_out := some now }]) ∧
    (∀ eid stid, reason ≠ "" → (∀ co, cout = some co → ci < co) →
      (admin_shift_new db now actor (some eid) (some stid) (some ci) cout reason).1
        = .created db.nextShiftId ∧
      (admin_shift_new db now actor (some eid) (some stid) (some ci) cout reason).2.audits
        = db.audits ++ [{ shift_id := db.nextShiftId, action := "create",
                          editor := actor, reason := reason,
                          old_clock_in := none, old_clock_out := none,
                          new_clock_in := some ci, new_clock_out := cout }]) ∧
    (∀ s, shiftById db sid = some s → reason ≠ "" → (∀ co, cout = some co → ci < co) →
      (admin_shift_edit db now actor sid eid2 stid2 (some ci) cout reason).1 = .updated ∧
      (admin_shift_edit db now actor sid eid2 stid2 (some ci) cout reason).2.audits
        = db.audits ++ [{ shift_id := s.id, action := "edit", editor := actor,
                          reason := reason,
                          old_clock_in := s.clock_in, old_clock_out := s.clock_out,
                          new_clock_in := some ci, new_clock_out := cout }]) ∧
    (∀ s, shiftById db sid = some s → s.clock_out = none →
      (admin_close_shift db now sid).1 = .closed ∧
      (admin_close_shift db now sid).2.audits = db.audits) := by
  have hrange : ∀ cot : Option Int, (∀ co, cot = some co → ci < co) →
      (match cot with
       | some co => decide (co ≤ ci)
       | none => false) = false := by
    intro cot hv
    cases cot with
    | none => rfl
    | some co => simpa using not_le.mpr (hv co rfl)
  refine ⟨?_, ?_, ?_, ?_, ?_⟩
  · intro s hs hopen
    refine ⟨?_, ?_⟩ <;> simp [admin_force_close_shift, hs, hopen, insertAudit, updateShift]
  · intro hpin hemp hact hopen hstore hgate hfar
    have hnle : ¬ hav lat lon st.latitude st.longitude
        ≤ st.geofence_radius_m + auto_exit_buffer_m := not_le.mpr hfar
    cases accuracy_m with
    | none =>
      simp [api_mobile_auto_exit_close, hpin, hemp, hact, hopen, hstore, hnle,
        insertAudit, updateShift, touch_employee_device_audits]
    | some a =>
      have ha : ¬ (120 : ℚ) < a :=
        not_lt.mpr (by simpa [max_accuracy_m] using hgate a rfl)
      simp [api_mobile_auto_exit_close, hpin, hemp, hact, hopen, hstore, hnle, ha,
        insertAudit, updateShift, touch_employee_device_audits]
  · intro eid stid hr hv
    refine ⟨?_, ?_⟩ <;>
      simp [admin_shift_new, hr, hrange cout hv, insertAudit, insertShift]
  · intro s hs hr hv
    refine ⟨?_, ?_⟩ <;>
      simp [admin_shift_edit, hs, hr, hrange cout hv, insertAudit, updateShift]
  · intro s hs hopen
    exact ⟨by simp [admin_close_shift, hs, hopen], by
      simp [admin_close_shift, hs, hopen, updateShift]⟩

/-- Witness for C2 (amended): force-closing Alice's open shift appends
exactly the `force_close` audit row, while the plain admin close appends
none. -/
theorem audit_rows_correct_witness :
    (admin_force_close_shift dbOpenSingle 2000 1 "fix" "dan").1 = .closed ∧
    (admin_force_close_shift dbOpenSingle 2000 1 "fix" "dan").2.audits
      = dbOpenSingle.audits
        ++ [{ shift_id := openShift1.id, action := "force_close",
              editor := "dan",
              reason := if ("fix" : String) = "" then
                "Force close (no reason provided)" else "fix",
              old_clock_in := openShift1.clock_in, old_clock_out := openShift1.clock_out,
              new_clock_in := openShift1.clock_in, new_clock_out := some 2000 }] ∧
    (admin_close_shift dbOpenSingle 2000 1).2.audits = dbOpenSingle.audits := by
  have h := audit_rows_correct flatDist dbOpenSingle 2000 1 "fix" "dan" "1111" 0 0
    none none none none none none 0 none empAlice openShift1 storeA
  exact ⟨(h.1 openShift1 rfl rfl).1, (h.1 openShift1 rfl rfl).2,
    (h.2.2.2.2 openShift1 rfl rfl).2⟩

/-- Counterexample to C2 as stated: the plain admin close of an open shift
(`admin_close_shift`) commits the mutation — the shift gets a clock-out —
with zero `ShiftEditAudit` rows, not exactly one. -/
theorem audit_rows_counterexample :
    (admin_close_shift dbOpenSingle 2000 1).1 = .closed ∧
    shiftById (admin_close_shift dbOpenSingle 2000 1).2 1
      = some { openShift1 with clock_out := some 2000 } ∧
    (admin_close_shift dbOpenSingle 2000 1).2.audits = [] := by
  exact ⟨rfl, rfl, rfl⟩

/-- Lookup after a dictionary accumulate. -/
theorem alGet_alBump {K : Type} [DecidableEq K] (m : List (K × Nat)) (k j : K)
    (v : Nat) :
    alGet (alBump m k v) j = if k = j then alGet m j + v else alGet m j := by
  induction m with
  | nil => by_cases h : k = j <;> simp [alBump, alGet, h]
  | cons p rest ih =>
    obtain ⟨k1, v1⟩ := p
    by_cases h1 : k = k1
    · subst h1
      by_cases h2 : k = j <;> simp [alBump, alGet, h2]
    · by_cases h2 : k1 = j
      · have hkj : ¬ k = j := fun hc => h1 (hc.trans h2.symm)
        simp [alBump, alGet, h1, h2, hkj]
      · simp [alBump, alGet, h1, h2, ih]

/-- The sum of dictionary values after an accumulate. -/
theorem sum_alBump {K : Type} [DecidableEq K] (m : List (K × Nat)) (k : K) (v : Nat) :
    ((alBump m k v).map Prod.snd).sum = (m.map Prod.snd).sum + v := by
  induction m with
  | nil => simp [alBump]
  | cons p rest ih =>
    obtain ⟨k1, v1⟩ := p
    by_cases h1 : k = k1 <;> simp [alBump, h1, ih] <;> omega

/-- Lookup after folding dictionary accumulates over a list of shifts:
each key's bucket is the sum of the contributions with that key. -/
theorem alGet_foldl_bump {K : Type} [DecidableEq K] (key : Shift → K)
    (val : Shift → Nat) (l : List Shift) :
    ∀ (m : List (K × Nat)) (j : K),
      alGet (l.foldl (fun acc s => alBump acc (key s) (val s)) m) j
        = alGet m j + ((l.filter (fun s => key s = j)).map val).sum := by
  induction l with
  | nil => intro m j; simp
  | cons s rest ih =>
    intro m j
    simp only [List.foldl_cons, List.filter_cons]
    rw [ih]
    by_cases h : key s = j
    · simp [h, alGet_alBump]; omega
    · simp [h, alGet_alBump]

/-- The total of all dictionary values after the fold is the initial total
plus all contributions. -/
theorem sum_foldl_bump {K : Type} [DecidableEq K] (key : Shift → K)
    (val : Shift → Nat) (l : List Shift) :
    ∀ m : List (K × Nat),
      (((l.foldl (fun acc s => alBump acc (key s) (val s)) m).map Prod.snd).sum)
        = (m.map Prod.snd).sum + (l.map val).sum := by
  induction l with
  | nil => intro m; simp
  | cons s rest ih => intro m; simp [ih, sum_alBump]; omega

/-- Membership in the payroll window filter. -/
theorem payroll_filter_mem (shifts : List Shift) (q_start q_end : Int) (s : Shift) :
    s ∈ payroll_filter shifts q_start q_end
      ↔ s ∈ shifts ∧ ∃ t, s.clock_out = some t ∧ q_start ≤ t ∧ t ≤ q_end := by
  unfold payroll_filter
  rw [List.mem_filter]
  constructor
  · rintro ⟨hm, hp⟩
    refine ⟨hm, ?_⟩
    cases hco : s.clock_out with
    | none => rw [hco] at hp; cases hp
    | some t =>
      rw [hco] at hp
      exact ⟨t, rfl, by simpa using hp⟩
  · rintro ⟨hm, t, hco, h1, h2⟩
    refine ⟨hm, ?_⟩
    rw [hco]
    simpa using ⟨h1, h2⟩

/-- **C7** — payroll aggregation: the report includes exactly the shifts
whose clock-out lies in the window (an open shift never appears); the
per-employee total is the sum of the included shifts' minutes for that
employee name; the per-(employee, weekday, store) bucket sums the minutes
of the included shifts whose CLOCK-IN local weekday is that weekday (so a
Sunday-night-to-Monday-morning shift is window-filtered by its Monday
clock-out but bucketed under Sunday); the grand total is the sum of the
per-employee totals, which equals the sum of all included minutes. -/
theorem payroll_aggregate_correct (localDay : Int → Int)
    (empName storeName : Nat → String) (shifts : List Shift) (q_start q_end : Int) :
    (∀ s, s ∈ (payroll_aggregate localDay empName storeName shifts q_start q_end).included
      ↔ s ∈ shifts ∧ ∃ t, s.clock_out = some t ∧ q_start ≤ t ∧ t ≤ q_end) ∧
    (∀ n, alGet
        (payroll_aggregate localDay empName storeName shifts q_start q_end).totals_by_emp n
      = (((payroll_aggregate localDay empName storeName shifts q_start q_end).included.filter
          (fun s => empName s.employee_id = n)).map shift_minutes).sum) ∧
    (∀ n w stn, alGet
        (payroll_aggregate localDay empName storeName shifts q_start q_end).weekly_map
        (n, w, stn)
      = (((payroll_aggregate localDay empName storeName shifts q_start q_end).included.filter
          (fun s => empName s.employee_id = n ∧ shiftWeekdayBucket localDay s = w
            ∧ storeName s.store_id = stn)).map shift_minutes).sum) ∧
    (payroll_aggregate localDay empName storeName shifts q_start q_end).grand_minutes
      = ((payroll_aggregate localDay empName storeName shifts q_start
          q_end).totals_by_emp.map Prod.snd).sum ∧
    (payroll_aggregate localDay empName storeName shifts q_start q_end).grand_minutes
      = ((payroll_aggregate localDay empName storeName shifts q_start
          q_end).included.map shift_minutes).sum := by
  simp only [payroll_aggregate]
  refine ⟨fun s => payroll_filter_mem shifts q_start q_end s, ?_, ?_, trivial, ?_⟩
  · intro n
    simpa [alGet] using alGet_foldl_bump (fun s => empName s.employee_id) shift_minutes
      (payroll_filter shifts q_start q_end) [] n
  · intro n w stn
    have h := alGet_foldl_bump
      (fun s => (empName s.employee_id, shiftWeekdayBucket localDay s,
        storeName s.store_id)) shift_minutes
      (payroll_filter shifts q_start q_end) [] (n, w, stn)
    have hfeq : (payroll_filter shifts q_start q_end).filter
        (fun s => decide ((empName s.employee_id, shiftWeekdayBucket localDay s,
          storeName s.store_id) = (n, w, stn)))
      = (payroll_filter shifts q_start q_end).filter
        (fun s => decide (empName s.employee_id = n
          ∧ shiftWeekdayBucket localDay s = w ∧ storeName s.store_id = stn)) := by
      apply List.filter_congr
      intro s _
      simp [Prod.ext_iff]
    rw [h, hfeq] at *
    simp [alGet]
  · simpa [alGet] using sum_foldl_bump (fun s => empName s.employee_id) shift_minutes
      (payroll_filter shifts q_start q_end) []

/-- Filtering after a pointwise map that can only turn matches into
non-matches cannot increase the match count. -/
theorem length_filter_map_le {α : Type} (l : List α) (g : α → α) (p : α → Bool)
    (h : ∀ a, p (g a) = true → p a = true) :
    ((l.map g).filter p).length ≤ (l.filter p).length := by
  induction l with
  | nil => simp
  | cons a t ih =>
    simp only [List.map_cons, List.filter_cons]
    cases hg : p (g a) with
    | true =>
      have ha := h a hg
      simp [hg, ha]
      omega
    | false =>
      cases ha : p a with
      | true => simp [hg, ha]; omega
      | false => simp [hg, ha]; exact ih

/-- The invariant only looks at the shift table. -/
theorem inv_of_shifts_eq {db1 db2 : DB} (h : db2.shifts = db1.shifts)
    (hinv : OneOpenShiftInv db1) : OneOpenShiftInv db2 := by
  intro eid
  unfold openShiftsFor at *
  rw [h]
  exact hinv eid

/-- The device touch preserves the invariant. -/
theorem inv_touch (db : DB) (eid : Nat) (dev lbl : Option String) (now : Int)
    (hinv : OneOpenShiftInv db) :
    OneOpenShiftInv (touch_employee_device db eid dev lbl now) :=
  inv_of_shifts_eq (touch_employee_device_shifts db eid dev lbl now) hinv

/-- An audit insert preserves the invariant. -/
theorem inv_insertAudit (db : DB) (a : ShiftEditAudit)
    (hinv : OneOpenShiftInv db) : OneOpenShiftInv (insertAudit db a) :=
  inv_of_shifts_eq rfl hinv

/-- Updating one row with a function that never opens a closed shift (for
any employee) preserves the invariant. -/
theorem inv_updateShift (db : DB) (sid : Nat) (f : Shift → Shift)
    (hf : ∀ t eid, isOpenFor eid (f t) = true → isOpenFor eid t = true)
    (hinv : OneOpenShiftInv db) : OneOpenShiftInv (updateShift db sid f) := by
  intro eid
  unfold openShiftsFor updateShift
  refine le_trans (length_filter_map_le _ _ _ ?_) (hinv eid)
  intro a ha
  by_cases hc : (a.id == sid) = true
  · exact hf a eid (by rwa [if_pos hc] at ha)
  · rwa [if_neg hc] at ha

/-- A row update that closes the row (sets a non-null clock-out) preserves
the invariant. -/
theorem inv_updateShift_close (db : DB) (sid : Nat) (f : Shift → Shift)
    (hf : ∀ t, (f t).clock_out ≠ none)
    (hinv : OneOpenShiftInv db) : OneOpenShiftInv (updateShift db sid f) := by
  refine inv_updateShift db sid f ?_ hinv
  intro t eid ho
  exfalso
  unfold isOpenFor at ho
  cases hco : (f t).clock_out with
  | none => exact hf t hco
  | some v => rw [hco] at ho; simp at ho

/-- Inserting an open shift after the empty-open-shifts check preserves the
invariant. -/
theorem inv_insertShift_guarded (db : DB) (s : Shift)
    (hempty : openShiftsFor db s.employee_id = [])
    (hinv : OneOpenShiftInv db) : OneOpenShiftInv (insertShift db s) := by
  intro eid
  unfold openShiftsFor insertShift
  show ((db.shifts ++ [s]).filter (isOpenFor eid)).length ≤ 1
  rw [List.filter_append]
  cases ho : isOpenFor eid s with
  | false =>
    simp [ho]
    exact hinv eid
  | true =>
    have hparts : s.employee_id = eid ∧ s.clock_out = none := by
      simpa [isOpenFor, Option.isNone_iff_eq_none] using ho
    obtain ⟨h1, h2⟩ := hparts
    subst h1
    unfold openShiftsFor at hempty
    rw [hempty]
    simp [ho]

/-- Inserting an already-closed shift preserves the invariant. -/
theorem inv_insertShift_closed (db : DB) (s : Shift) (hclosed : s.clock_out ≠ none)
    (hinv : OneOpenShiftInv db) : OneOpenShiftInv (insertShift db s) := by
  intro eid
  unfold openShiftsFor insertShift
  show ((db.shifts ++ [s]).filter (isOpenFor eid)).length ≤ 1
  rw [List.filter_append]
  have ho : isOpenFor eid s = false := by
    unfold isOpenFor
    cases hco : s.clock_out with
    | none => exact absurd hco hclosed
    | some t => simp
  simp [ho]
  exact hinv eid

/-- `api_mobile_clock_in` preserves the one-open-shift invariant. -/
theorem inv_api_mobile_clock_in (hav : ℚ → ℚ → ℚ → ℚ → ℚ) (db : DB) (now : Int)
    (pin : String) (lat lon : ℚ) (accuracy_m : Option ℚ) (dev lbl : Option String)
    (hinv : OneOpenShiftInv db) :
    OneOpenShiftInv (api_mobile_clock_in hav db now pin lat lon accuracy_m dev lbl).2 := by
  unfold api_mobile_clock_in
  split
  · exact hinv
  split
  · exact hinv
  rename_i emp hemp
  split
  · exact hinv
  split
  · exact hinv
  rename_i heq
  split
  rotate_left
  · exact hinv
  rename_i store d hacc
  split
  · exact hinv
  refine inv_insertShift_guarded _ _ ?_ (inv_touch _ _ _ _ _ hinv)
  show openShiftsFor (touch_employee_device db emp.id dev lbl now) emp.id = []
  rw [openShiftsFor_touch]
  exact heq

/-- `api_clockin` preserves the one-open-shift invariant. -/
theorem inv_api_clockin (hav : ℚ → ℚ → ℚ → ℚ → ℚ) (db : DB) (now : Int)
    (pin qr_raw : String) (loc : Option (ℚ × ℚ)) (dev lbl : Option String)
    (hinv : OneOpenShiftInv db) :
    OneOpenShiftInv (api_clockin hav db now pin qr_raw loc dev lbl).2 := by
  unfold api_clockin
  dsimp only
  split
  · exact hinv
  split
  · exact hinv
  rename_i emp hemp
  split
  · exact hinv
  split
  · exact hinv
  rename_i store hst
  split
  · exact hinv
  rename_i heq
  split
  · exact hinv
  split
  · exact hinv
  rename_i lat lng
  split
  · exact hinv
  refine inv_insertShift_guarded _ _ ?_ (inv_touch _ _ _ _ _ hinv)
  show openShiftsFor (touch_employee_device db emp.id dev lbl now) emp.id = []
  rw [openShiftsFor_touch]
  exact heq

/-- `mobile_clock_in` preserves the one-open-shift invariant. -/
theorem inv_mobile_clock_in (hav : ℚ → ℚ → ℚ → ℚ → ℚ) (db : DB) (now : Int)
    (pin device_uuid : String) (loc : Option (ℚ × ℚ)) (accuracy_m : Option ℚ)
    (hinv : OneOpenShiftInv db) :
    OneOpenShiftInv (mobile_clock_in hav db now pin device_uuid loc accuracy_m).2 := by
  unfold mobile_clock_in
  dsimp only
  split
  · exact hinv
  split
  · exact hinv
  rename_i lat lon
  split
  · exact hinv
  rename_i emp hemp
  split
  rotate_left
  · exact hinv
  rename_i store d hacc
  split
  · exact hinv
  rename_i heq
  exact inv_insertShift_guarded _ _ heq hinv

/-- `api_mobile_clock_out` preserves the one-open-shift invariant. -/
theorem inv_api_mobile_clock_out (hav : ℚ → ℚ → ℚ → ℚ → ℚ) (db : DB) (now : Int)
    (pin : String) (lat lon : ℚ) (accuracy_m : Option ℚ) (dev lbl : Option String)
    (hinv : OneOpenShiftInv db) :
    OneOpenShiftInv (api_mobile_clock_out hav db now pin lat lon accuracy_m dev lbl).2 := by
  unfold api_mobile_clock_out
  dsimp only
  split
  · exact hinv
  split
  · exact hinv
  rename_i emp hemp
  split
  · exact hinv
  split
  · exact hinv
  rename_i os rest heq
  split
  rotate_left
  · exact hinv
  split
  · exact hinv
  exact inv_updateShift_close _ _ _ (fun t => by simp) (inv_touch _ _ _ _ _ hinv)

/-- `api_clockout` preserves the one-open-shift invariant. -/
theorem inv_api_clockout (hav : ℚ → ℚ → ℚ → ℚ → ℚ) (db : DB) (now : Int)
    (pin : String) (loc : Option (ℚ × ℚ)) (dev lbl : Option String)
    (hinv : OneOpenShiftInv db) :
    OneOpenShiftInv (api_clockout hav db now pin loc dev lbl).2 := by
  unfold api_clockout
  dsimp only
  split
  · exact hinv
  split
  · exact hinv
  rename_i emp hemp
  split
  · exact hinv
  split
  · exact hinv
  rename_i os rest heq
  split
  · exact hinv
  rename_i lat lng
  split
  · exact hinv
  rename_i store hst
  split
  · exact hinv
  exact inv_updateShift_close _ _ _ (fun t => by simp) (inv_touch _ _ _ _ _ hinv)

/-- `api_mobile_auto_exit_close` preserves the one-open-shift invariant. -/
theorem inv_api_mobile_auto_exit_close (hav : ℚ → ℚ → ℚ → ℚ → ℚ) (db : DB)
    (now : Int) (pin : String) (lat lon : ℚ) (accuracy_m : Option ℚ)
    (dev lbl reasonArg : Option String)
    (hinv : OneOpenShiftInv db) :
    OneOpenShiftInv
      (api_mobile_auto_exit_close hav db now pin lat lon accuracy_m dev lbl reasonArg).2 := by
  unfold api_mobile_auto_exit_close
  dsimp only
  split
  · exact hinv
  split
  · exact hinv
  rename_i emp hemp
  split
  · exact hinv
  split
  · exact hinv
  rename_i os rest heq
  split
  · exact hinv
  rename_i store hst
  split
  · exact hinv
  split
  · exact hinv
  exact inv_insertAudit _ _
    (inv_updateShift_close _ _ _ (fun t => by simp) (inv_touch _ _ _ _ _ hinv))

/-- `admin_close_shift` preserves the one-open-shift invariant. -/
theorem inv_admin_close_shift (db : DB) (now : Int) (shift_id : Nat)
    (hinv : OneOpenShiftInv db) :
    OneOpenShiftInv (admin_close_shift db now shift_id).2 := by
  unfold admin_close_shift
  split
  · exact hinv
  rename_i s hs
  split
  · exact hinv
  exact inv_updateShift_close _ _ _ (fun t => by simp) hinv

/-- `admin_force_close_shift` preserves the one-open-shift invariant. -/
theorem inv_admin_force_close_shift (db : DB) (now : Int) (shift_id : Nat)
    (reason actor : String)
    (hinv : OneOpenShiftInv db) :
    OneOpenShiftInv (admin_force_close_shift db now shift_id reason actor).2 := by
  unfold admin_force_close_shift
  split
  · exact hinv
  rename_i s hs
  split
  · exact hinv
  exact inv_insertAudit _ _ (inv_updateShift_close _ _ _ (fun t => by simp) hinv)

/-- `admin_shift_new` preserves the invariant whenever a clock-out is
supplied (the created shift is closed). -/
theorem inv_admin_shift_new_closed (db : DB) (now : Int) (actor : String)
    (employee_id store_id : Option Nat) (cin : Option Int) (co : Int)
    (reason : String)
    (hinv : OneOpenShiftInv db) :
    OneOpenShiftInv
      (admin_shift_new db now actor employee_id store_id cin (some co) reason).2 := by
  unfold admin_shift_new
  split
  rotate_left
  · exact hinv
  rename_i eid sid
  split
  · exact hinv
  split
  · exact hinv
  rename_i ci
  split
  · exact hinv
  refine inv_insertAudit _ _ (inv_insertShift_closed _ _ ?_ hinv)
  simp

/-- `admin_shift_edit` preserves the invariant whenever a clock-out is
supplied (the edited shift ends up closed). -/
theorem inv_admin_shift_edit_closed (db : DB) (now : Int) (actor : String)
    (shift_id : Nat) (employee_id store_id : Option Nat) (cin : Option Int)
    (co : Int) (reason : String)
    (hinv : OneOpenShiftInv db) :
    OneOpenShiftInv
      (admin_shift_edit db now actor shift_id employee_id store_id cin (some co)
        reason).2 := by
  unfold admin_shift_edit
  split
  · exact hinv
  rename_i s hs
  split
  · exact hinv
  split
  · exact hinv
  rename_i ci
  split
  · exact hinv
  exact inv_insertAudit _ _ (inv_updateShift_close _ _ _ (fun t => by simp) hinv)

/-- **C1 (amended)** — from any state satisfying the at-most-one-open-shift
invariant, every clock-in endpoint (all of which insert only after finding
no open shift for the employee), every clock-out, the auto-exit close, and
both admin closes preserve the invariant; admin manual create and admin
edit preserve it whenever a clock-out is supplied.  (As the counterexample
shows, manual create with an empty clock-out — and likewise an edit that
clears the clock-out — can produce a second open shift, so the unqualified
claim fails for those two operations.) -/
theorem one_open_shift_invariant_correct (hav : ℚ → ℚ → ℚ → ℚ → ℚ) (db : DB)
    (now : Int) (pin qr_raw device_uuid reason actor : String) (lat lon : ℚ)
    (loc : Option (ℚ × ℚ)) (accuracy_m : Option ℚ) (dev lbl reasonArg : Option String)
    (shift_id : Nat) (employee_id store_id : Option Nat) (cin cout : Option Int)
    (hinv : OneOpenShiftInv db) :
    OneOpenShiftInv (api_mobile_clock_in hav db now pin lat lon accuracy_m dev lbl).2 ∧
    OneOpenShiftInv (api_clockin hav db now pin qr_raw loc dev lbl).2 ∧
    OneOpenShiftInv (mobile_clock_in hav db now pin device_uuid loc accuracy_m).2 ∧
    OneOpenShiftInv (api_mobile_clock_out hav db now pin lat lon accuracy_m dev lbl).2 ∧
    OneOpenShiftInv (api_clockout hav db now pin loc dev lbl).2 ∧
    OneOpenShiftInv
      (api_mobile_auto_exit_close hav db now pin lat lon accuracy_m dev lbl reasonArg).2 ∧
    OneOpenShiftInv (admin_close_shift db now shift_id).2 ∧
    OneOpenShiftInv (admin_force_close_shift db now shift_id reason actor).2 ∧
    (∀ co, cout = some co →
      OneOpenShiftInv
        (admin_shift_new db now actor employee_id store_id cin cout reason).2) ∧
    (∀ co, cout = some co →
      OneOpenShiftInv
        (admin_shift_edit db now actor shift_id employee_id store_id cin cout
          reason).2) := by
  refine ⟨inv_api_mobile_clock_in hav db now pin lat lon accuracy_m dev lbl hinv,
    inv_api_clockin hav db now pin qr_raw loc dev lbl hinv,
    inv_mobile_clock_in hav db now pin device_uuid loc accuracy_m hinv,
    inv_api_mobile_clock_out hav db now pin lat lon accuracy_m dev lbl hinv,
    inv_api_clockout hav db now pin loc dev lbl hinv,
    inv_api_mobile_auto_exit_close hav db now pin lat lon accuracy_m dev lbl reasonArg hinv,
    inv_admin_close_shift db now shift_id hinv,
    inv_admin_force_close_shift db now shift_id reason actor hinv,
    ?_, ?_⟩
  · intro co hco
    rw [hco]
    exact inv_admin_shift_new_closed db now actor employee_id store_id cin co reason hinv
  · intro co hco
    rw [hco]
    exact inv_admin_shift_edit_closed db now actor shift_id employee_id store_id cin
      co reason hinv

/-- Witness for C1 (amended): from the empty-shift state, a successful
mobile clock-in leaves the invariant intact. -/
theorem one_open_shift_invariant_correct_witness :
    OneOpenShiftInv dbNoShift ∧
    OneOpenShiftInv (api_mobile_clock_in flatDist dbNoShift 1000 "1111" 0 0
      none none none).2 := by
  have hinv : OneOpenShiftInv dbNoShift := by
    intro eid
    simp [openShiftsFor, dbNoShift]
  exact ⟨hinv, (one_open_shift_invariant_correct flatDist dbNoShift 1000 "1111"
    "store-a" "dev-1" "r" "dan" 0 0 (some (0, 0)) none none none none 1 (some 1)
    (some 1) (some 100) (some 200) hinv).1⟩

/-- Counterexample to C1 as stated: with Alice already holding an open
shift, `admin_shift_new` with an EMPTY clock-out happily creates a second
open shift for her — the invariant does not survive admin manual create. -/
theorem one_open_shift_invariant_counterexample :
    OneOpenShiftInv dbOpenSingle ∧
    (admin_shift_new dbOpenSingle 2000 "dan" (some 1) (some 1) (some 500) none
      "cover missed punch").1 = .created 2 ∧
    ¬ OneOpenShiftInv (admin_shift_new dbOpenSingle 2000 "dan" (some 1) (some 1)
      (some 500) none "cover missed punch").2 := by
  refine ⟨?_, rfl, ?_⟩
  · intro eid
    refine le_trans (List.length_filter_le _ _) ?_
    simp [dbOpenSingle]
  · intro h
    have h1 := h 1
    revert h1
    decide

end Clockin
